import Mathlib

/-!
Shallow embedding of src/cmd/list/region/cmd.go from the moactl repository:
the `run` function of the `regions` subcommand, which builds an OCM API
connection, creates an AWS client, fetches the region list for the account
and prints a filtered, tabulated report.

External calls (connection build and close, AWS client build, access-key
retrieval, region fetch) are modelled through an environment of `Except`
results; the body of `run` is translated statement by statement.  Go
semantics note: `os.Exit` terminates the process immediately and does not
run deferred functions, so the deferred `ocmConnection.Close()` only runs
on the path where `run` returns normally; the embedding records in the
trace whether the close actually ran (`connClosed`).
-/

namespace Moactl

/-- A region record as returned by the OCM provider API, carrying the four
accessors used by `run`: `ID()`, `DisplayName()`, `Enabled()` and
`SupportsMultiAZ()`. -/
structure Region where
  id : String
  displayName : String
  enabled : Bool
  supportsMultiAZ : Bool
deriving Repr, DecidableEq

/-- An AWS access key pair as returned by `GetAWSAccessKeys`. -/
structure AccessKey where
  accessKeyID : String
  secretAccessKey : String
deriving Repr, DecidableEq

/-- The state of the `--multi-az` boolean flag: the parsed value
(`args.multiAZ`, default `false`) together with whether the user supplied
the flag explicitly (`cmd.Flags().Changed("multi-az")`). -/
structure FlagState where
  multiAZ : Bool
  changed : Bool
deriving Repr, DecidableEq

/-- Results of the external collaborator calls that `run` can make, in
source order.  Each fallible call is an `Except` whose error value is the
text rendered by the `%v` verb of the corresponding message. -/
structure Env where
  buildConn : Except String Unit
  closeConn : Except String Unit
  buildAWS : Except String Unit
  getKeys : Except String AccessKey
  fetchRegions : Except String (List Region)
deriving Repr

/-- Modelled from the spec: `aws.AdminUserName`, the fixed administrative
identity whose access keys are retrieved.  The `aws` package is not among
the sources; only the fact that the error message names this identity is
relevant here, never its concrete value. -/
def adminUserName : String := "admin"

/-- One output line handed to the tab writer: the three cells produced by
the `%s`, `%s` and `%t` verbs of one `Fprintf` call. -/
abbrev Row := String × String × String

/-- Observable outcome of one execution of `run`: the messages sent to the
reporter at each level, the rows written to standard output, whether the
deferred `Close` of the OCM connection actually ran, which later external
calls were reached, and the process exit code. -/
structure Trace where
  errors : List String
  warnings : List String
  debugs : List String
  stdout : List Row
  connClosed : Bool
  keysLookedUp : Bool
  fetched : Bool
  exitCode : Nat
deriving Repr, DecidableEq

/-- The fixed header line written before the loop, as its three cells. -/
def headerRow : Row := ("ID", "NAME", "MULTI-AZ SUPPORT")

/-- The skip conditions of the loop body: a region is dropped when its
enabled accessor is false, or when the flag was supplied and the requested
value differs from the regions multi-AZ support. -/
def keepRegion (flag : FlagState) (r : Region) : Bool :=
  if !r.enabled then
    false
  else if flag.changed then
    if flag.multiAZ != r.supportsMultiAZ then false else true
  else
    true

/-- The data line printed for one region: id, display name, and the
multi-AZ support flag rendered by `%t` as a boolean literal. -/
def regionRow (r : Region) : Row :=
  (r.id, r.displayName, if r.supportsMultiAZ then "true" else "false")

/-- The `for` loop over the fetched regions: one data row per region that
is not skipped, kept in fetch order. -/
def tableBody (flag : FlagState) : List Region → List Row
  | [] => []
  | r :: rest =>
    if keepRegion flag r then regionRow r :: tableBody flag rest
    else tableBody flag rest

/-- Shallow embedding of `run` from src/cmd/list/region/cmd.go.  The Go
control flow is mirrored branch by branch: a connection-build failure
reports and exits 1 before anything else; AWS client build and access-key
retrieval failures are reported but control falls through to the fetch; a
fetch failure or an empty fetched list reports and calls `os.Exit(1)`,
which terminates without running the deferred close; only the normal
return path runs the deferred `Close`, whose own failure is reported but
leaves the exit code at 0. -/
def run (env : Env) (flag : FlagState) : Trace :=
  match env.buildConn with
  | .error e =>
    { errors := ["Failed to create OCM connection: " ++ e]
      warnings := []
      debugs := []
      stdout := []
      connClosed := false
      keysLookedUp := false
      fetched := false
      exitCode := 1 }
  | .ok _ =>
    let awsErrs : List String :=
      match env.buildAWS with
      | .error e => ["Failed to create AWS client: " ++ e]
      | .ok _ => []
    let keyErrs : List String :=
      match env.getKeys with
      | .error e =>
        ["Failed to get access keys for user '" ++ adminUserName ++ "': " ++ e]
      | .ok _ => []
    match env.fetchRegions with
    | .error e =>
      { errors := awsErrs ++ keyErrs ++ ["Failed to fetch regions: " ++ e]
        warnings := []
        debugs := ["Fetching regions"]
        stdout := []
        connClosed := false
        keysLookedUp := true
        fetched := true
        exitCode := 1 }
    | .ok regions =>
      if regions.length == 0 then
        { errors := awsErrs ++ keyErrs
          warnings := ["There are no regions available for this AWS account"]
          debugs := ["Fetching regions"]
          stdout := []
          connClosed := false
          keysLookedUp := true
          fetched := true
          exitCode := 1 }
      else
        let closeErrs : List String :=
          match env.closeConn with
          | .error e => ["Failed to close OCM connection: " ++ e]
          | .ok _ => []
        { errors := awsErrs ++ keyErrs ++ closeErrs
          warnings := []
          debugs := ["Fetching regions"]
          stdout := headerRow :: tableBody flag regions
          connClosed := true
          keysLookedUp := true
          fetched := true
          exitCode := 0 }

/-- The example region sequence from the spec. -/
def sampleRegions : List Region :=
  [⟨"us-east-1", "US East", true, true⟩,
   ⟨"us-west-1", "US West", false, true⟩,
   ⟨"eu-west-1", "EU West", true, false⟩]

/-- An environment where every external call succeeds and the fetch
returns the spec example sequence. -/
def sampleEnv : Env :=
  { buildConn := .ok ()
    closeConn := .ok ()
    buildAWS := .ok ()
    getKeys := .ok ⟨"AKID", "SECRET"⟩
    fetchRegions := .ok sampleRegions }

/-- When the flag was not supplied, the loop keeps a region exactly when
it is enabled. -/
theorem keepRegion_of_unset (flag : FlagState) (hc : flag.changed = false) :
    keepRegion flag = fun r => r.enabled := by
  funext r
  cases hr : r.enabled <;> simp [keepRegion, hc, hr]

/-- When the flag was supplied, the loop keeps a region exactly when it is
enabled and its multi-AZ support equals the requested value. -/
theorem keepRegion_of_set (flag : FlagState) (hc : flag.changed = true) :
    keepRegion flag = fun r => r.enabled && (r.supportsMultiAZ == flag.multiAZ) := by
  funext r
  cases hr : r.enabled <;> cases hm : r.supportsMultiAZ <;> cases hz : flag.multiAZ <;>
    simp [keepRegion, hc, hr, hm, hz]

/-- Any region kept by the loop is enabled, for every flag state. -/
theorem enabled_of_keepRegion {flag : FlagState} {r : Region}
    (h : keepRegion flag r = true) : r.enabled = true := by
  cases hr : r.enabled
  · simp [keepRegion, hr] at h
  · rfl

/-- The loop is a filter followed by row formatting. -/
theorem tableBody_eq_filter_map (flag : FlagState) (regions : List Region) :
    tableBody flag regions = (regions.filter (keepRegion flag)).map regionRow := by
  induction regions with
  | nil => rfl
  | cons r rest ih =>
    cases h : keepRegion flag r <;> simp [tableBody, h, List.filter_cons, ih]

/-- C1: For every fetched region sequence, when the multi-az flag was not
supplied by the user, the printed data rows are exactly the rows of the
regions whose enabled flag is true, in the same order as the fetched
sequence. -/
theorem unset_flag_prints_exactly_enabled (env : Env) (flag : FlagState)
    (regions : List Region)
    (hb : env.buildConn = Except.ok ())
    (hf : env.fetchRegions = Except.ok regions)
    (hc : flag.changed = false) :
    (run env flag).stdout.drop 1
      = (regions.filter fun r => r.enabled).map regionRow := by
  cases regions with
  | nil => simp [run, hb, hf]
  | cons r rest =>
    simp [run, hb, hf, tableBody_eq_filter_map, keepRegion_of_unset flag hc]

/-- C1 witness: on the example sequence with the flag unset, the data rows
are the two enabled regions, in fetch order. -/
theorem unset_flag_prints_exactly_enabled_witness :
    (run sampleEnv ⟨false, false⟩).stdout.drop 1
      = [("us-east-1", "US East", "true"), ("eu-west-1", "EU West", "false")] :=
  Eq.trans
    (unset_flag_prints_exactly_enabled sampleEnv ⟨false, false⟩ sampleRegions rfl rfl rfl)
    (by decide)

/-- C2: when the multi-az flag was explicitly supplied with value `v`, the
printed data rows are exactly the enabled regions whose multi-AZ support
equals `v`, in fetch order; when the flag was not supplied, no multi-AZ
filtering occurs regardless of the flags default value. -/
theorem multi_az_flag_filters_exactly (env : Env) (flag : FlagState)
    (regions : List Region)
    (hb : env.buildConn = Except.ok ())
    (hf : env.fetchRegions = Except.ok regions) :
    (flag.changed = true →
      (run env flag).stdout.drop 1
        = (regions.filter fun r =>
            r.enabled && (r.supportsMultiAZ == flag.multiAZ)).map regionRow)
    ∧ (flag.changed = false →
      (run env flag).stdout.drop 1
        = (regions.filter fun r => r.enabled).map regionRow) := by
  constructor
  · intro hc
    cases regions with
    | nil => simp [run, hb, hf]
    | cons r rest =>
      simp [run, hb, hf, tableBody_eq_filter_map, keepRegion_of_set flag hc]
  · intro hc
    exact unset_flag_prints_exactly_enabled env flag regions hb hf hc

/-- C2 witness: on the example sequence with the flag explicitly set to
true, the only data row is the one enabled multi-AZ region. -/
theorem multi_az_flag_filters_exactly_witness :
    (run sampleEnv ⟨true, true⟩).stdout.drop 1
      = [("us-east-1", "US East", "true")] :=
  Eq.trans
    ((multi_az_flag_filters_exactly sampleEnv ⟨true, true⟩ sampleRegions rfl rfl).1 rfl)
    (by decide)

/-- C3: for every fetched region sequence and every flag state, every
printed data row is the row of some enabled region of the fetched
sequence, so a region whose enabled flag is false never appears. -/
theorem disabled_regions_never_printed (env : Env) (flag : FlagState)
    (regions : List Region) (row : Row)
    (hf : env.fetchRegions = Except.ok regions)
    (hrow : row ∈ (run env flag).stdout.drop 1) :
    ∃ r ∈ regions, r.enabled = true ∧ row = regionRow r := by
  cases hb : env.buildConn with
  | error e => simp [run, hb] at hrow
  | ok u =>
    cases regions with
    | nil => simp [run, hb, hf] at hrow
    | cons r rest =>
      simp only [run, hb, hf] at hrow
      rw [List.drop_one] at hrow
      simp only [List.length_cons, beq_iff_eq, Nat.succ_ne_zero, if_false,
        List.tail_cons, tableBody_eq_filter_map] at hrow
      obtain ⟨s, hsmem, hseq⟩ := List.mem_map.mp hrow
      obtain ⟨hsr, hskeep⟩ := List.mem_filter.mp hsmem
      exact ⟨s, hsr, enabled_of_keepRegion hskeep, hseq.symm⟩

/-- C3 witness: the first data row printed for the example sequence is the
row of an enabled region of that sequence. -/
theorem disabled_regions_never_printed_witness :
    ∃ r ∈ sampleRegions, r.enabled = true
      ∧ ("us-east-1", "US East", "true") = regionRow r :=
  disabled_regions_never_printed sampleEnv ⟨false, false⟩ sampleRegions
    ("us-east-1", "US East", "true") rfl (by decide)

/-- C4: when the fetch succeeds but returns an empty sequence, `run`
emits the no-regions warning, exits with code 1, and prints nothing, not
even the header row. -/
theorem empty_fetch_warns_and_exits (env : Env) (flag : FlagState)
    (hb : env.buildConn = Except.ok ())
    (hf : env.fetchRegions = Except.ok []) :
    (run env flag).warnings
      = ["There are no regions available for this AWS account"]
    ∧ (run env flag).exitCode = 1
    ∧ (run env flag).stdout = [] := by
  simp [run, hb, hf]

/-- An environment where the fetch succeeds with an empty sequence. -/
def emptyFetchEnv : Env :=
  { buildConn := .ok ()
    closeConn := .ok ()
    buildAWS := .ok ()
    getKeys := .ok ⟨"AKID", "SECRET"⟩
    fetchRegions := .ok [] }

/-- C4 witness: concrete empty-fetch run warns, exits 1 and prints no
table. -/
theorem empty_fetch_warns_and_exits_witness :
    (run emptyFetchEnv ⟨false, false⟩).warnings
      = ["There are no regions available for this AWS account"]
    ∧ (run emptyFetchEnv ⟨false, false⟩).exitCode = 1
    ∧ (run emptyFetchEnv ⟨false, false⟩).stdout = [] :=
  empty_fetch_warns_and_exits emptyFetchEnv ⟨false, false⟩ rfl rfl

/-- C5: when the fetch fails, `run` reports an error message containing
the underlying cause, exits with code 1, and prints no table. -/
theorem fetch_error_reports_cause_and_exits (env : Env) (flag : FlagState)
    (e : String)
    (hb : env.buildConn = Except.ok ())
    (hf : env.fetchRegions = Except.error e) :
    (∃ msg ∈ (run env flag).errors, ∃ before after, msg = before ++ e ++ after)
    ∧ (run env flag).exitCode = 1
    ∧ (run env flag).stdout = [] := by
  refine ⟨⟨"Failed to fetch regions: " ++ e, ?_, "Failed to fetch regions: ", "", ?_⟩, ?_, ?_⟩
  · simp [run, hb, hf]
  · simp
  · simp [run, hb, hf]
  · simp [run, hb, hf]

/-- An environment where the fetch itself fails. -/
def fetchFailEnv : Env :=
  { buildConn := .ok ()
    closeConn := .ok ()
    buildAWS := .ok ()
    getKeys := .ok ⟨"AKID", "SECRET"⟩
    fetchRegions := .error "boom" }

/-- C5 witness: concrete failed-fetch run reports the cause, exits 1 and
prints no table. -/
theorem fetch_error_reports_cause_and_exits_witness :
    (∃ msg ∈ (run fetchFailEnv ⟨false, false⟩).errors,
      ∃ before after, msg = before ++ "boom" ++ after)
    ∧ (run fetchFailEnv ⟨false, false⟩).exitCode = 1
    ∧ (run fetchFailEnv ⟨false, false⟩).stdout = [] :=
  fetch_error_reports_cause_and_exits fetchFailEnv ⟨false, false⟩ "boom" rfl rfl

/-- C7: when building the OCM connection fails, `run` reports exactly that
error and exits 1 before any further work: no access-key lookup, no fetch,
no output, and no close of a connection that was never acquired. -/
theorem build_failure_exits_before_work (env : Env) (flag : FlagState)
    (e : String)
    (hb : env.buildConn = Except.error e) :
    (run env flag).errors = ["Failed to create OCM connection: " ++ e]
    ∧ (run env flag).exitCode = 1
    ∧ (run env flag).keysLookedUp = false
    ∧ (run env flag).fetched = false
    ∧ (run env flag).stdout = [] := by
  simp [run, hb]

/-- An environment where building the OCM connection fails. -/
def buildFailEnv : Env :=
  { buildConn := .error "no token"
    closeConn := .ok ()
    buildAWS := .ok ()
    getKeys := .ok ⟨"AKID", "SECRET"⟩
    fetchRegions := .ok sampleRegions }

/-- C7 witness: concrete failed-build run reports, exits 1 and does no
further work. -/
theorem build_failure_exits_before_work_witness :
    (run buildFailEnv ⟨false, false⟩).errors
      = ["Failed to create OCM connection: no token"]
    ∧ (run buildFailEnv ⟨false, false⟩).exitCode = 1
    ∧ (run buildFailEnv ⟨false, false⟩).keysLookedUp = false
    ∧ (run buildFailEnv ⟨false, false⟩).fetched = false
    ∧ (run buildFailEnv ⟨false, false⟩).stdout = [] :=
  build_failure_exits_before_work buildFailEnv ⟨false, false⟩ "no token" rfl

/-- C8: a failure of AWS client construction, or a failure of access-key
retrieval, is reported yet execution continues past it: the fetch is still
reached.  The two cases are stated independently, so each holds whether or
not the other call also fails. -/
theorem aws_failures_are_nonfatal (env : Env) (flag : FlagState)
    (hb : env.buildConn = Except.ok ()) :
    (∀ ea, env.buildAWS = Except.error ea →
      ("Failed to create AWS client: " ++ ea) ∈ (run env flag).errors
      ∧ (run env flag).fetched = true)
    ∧ (∀ ek, env.getKeys = Except.error ek →
      ("Failed to get access keys for user '" ++ adminUserName ++ "': " ++ ek)
          ∈ (run env flag).errors
      ∧ (run env flag).fetched = true) := by
  constructor
  · intro ea ha
    cases hf : env.fetchRegions with
    | error e => simp [run, hb, ha, hf]
    | ok regions =>
      cases regions with
      | nil => simp [run, hb, ha, hf]
      | cons r rest => simp [run, hb, ha, hf]
  · intro ek hk
    cases hf : env.fetchRegions with
    | error e => simp [run, hb, hk, hf]
    | ok regions =>
      cases regions with
      | nil => simp [run, hb, hk, hf]
      | cons r rest => simp [run, hb, hk, hf]

/-- An environment where only the AWS client build fails. -/
def awsBuildFailEnv : Env :=
  { buildConn := .ok ()
    closeConn := .ok ()
    buildAWS := .error "no credentials file"
    getKeys := .ok ⟨"AKID", "SECRET"⟩
    fetchRegions := .ok sampleRegions }

/-- An environment where only the access-key retrieval fails. -/
def keysFailEnv : Env :=
  { buildConn := .ok ()
    closeConn := .ok ()
    buildAWS := .ok ()
    getKeys := .error "stack not found"
    fetchRegions := .ok sampleRegions }

/-- C8 witness: with the AWS client build failing alone the error is
reported and the fetch still happens, and likewise with the key retrieval
failing alone. -/
theorem aws_failures_are_nonfatal_witness :
    (("Failed to create AWS client: no credentials file")
        ∈ (run awsBuildFailEnv ⟨false, false⟩).errors
      ∧ (run awsBuildFailEnv ⟨false, false⟩).fetched = true)
    ∧ (("Failed to get access keys for user '" ++ adminUserName ++ "': stack not found")
        ∈ (run keysFailEnv ⟨false, false⟩).errors
      ∧ (run keysFailEnv ⟨false, false⟩).fetched = true) :=
  ⟨(aws_failures_are_nonfatal awsBuildFailEnv ⟨false, false⟩ rfl).1
      "no credentials file" rfl,
   (aws_failures_are_nonfatal keysFailEnv ⟨false, false⟩ rfl).2
      "stack not found" rfl⟩

/-- C9: for a non-empty fetched sequence the printed table is the fixed
three-column header followed by one row per surviving region, and each row
carries the regions id, display name, and multi-AZ support rendered as a
boolean literal. -/
theorem table_has_header_and_row_per_survivor (env : Env) (flag : FlagState)
    (regions : List Region)
    (hb : env.buildConn = Except.ok ())
    (hf : env.fetchRegions = Except.ok regions)
    (hne : regions ≠ []) :
    (run env flag).stdout
      = ("ID", "NAME", "MULTI-AZ SUPPORT")
          :: (regions.filter (keepRegion flag)).map regionRow
    ∧ ∀ r : Region,
        regionRow r
          = (r.id, r.displayName, if r.supportsMultiAZ then "true" else "false") := by
  constructor
  · cases regions with
    | nil => exact absurd rfl hne
    | cons r rest => simp [run, hb, hf, tableBody_eq_filter_map, headerRow]
  · intro r
    rfl

/-- C9 witness: on the example sequence with the flag set to true, the
whole table is the header plus the one surviving row. -/
theorem table_has_header_and_row_per_survivor_witness :
    (run sampleEnv ⟨true, true⟩).stdout
      = [("ID", "NAME", "MULTI-AZ SUPPORT"), ("us-east-1", "US East", "true")] :=
  Eq.trans
    (table_has_header_and_row_per_survivor sampleEnv ⟨true, true⟩ sampleRegions
      rfl rfl (by decide)).1
    (by decide)

/-- C10: when the fetch returns a non-empty sequence but the loop filters
every region out, `run` still prints the header row, prints zero data
rows, and completes normally with exit code 0; the empty-result failure
path fires only for an empty fetched sequence. -/
theorem empty_filter_result_still_succeeds (env : Env) (flag : FlagState)
    (regions : List Region)
    (hb : env.buildConn = Except.ok ())
    (hf : env.fetchRegions = Except.ok regions)
    (hne : regions ≠ [])
    (hfil : regions.filter (keepRegion flag) = []) :
    (run env flag).stdout = [headerRow]
    ∧ (run env flag).exitCode = 0
    ∧ (run env flag).warnings = [] := by
  cases regions with
  | nil => exact absurd rfl hne
  | cons r rest =>
    refine ⟨?_, ?_, ?_⟩
    · simp [run, hb, hf, tableBody_eq_filter_map, hfil]
    · simp [run, hb, hf]
    · simp [run, hb, hf]

/-- An environment whose fetch returns one region that is not enabled. -/
def allDisabledEnv : Env :=
  { buildConn := .ok ()
    closeConn := .ok ()
    buildAWS := .ok ()
    getKeys := .ok ⟨"AKID", "SECRET"⟩
    fetchRegions := .ok [⟨"ap-south-1", "AP South", false, true⟩] }

/-- C10 witness: fetching one disabled region prints the bare header and
exits 0. -/
theorem empty_filter_result_still_succeeds_witness :
    (run allDisabledEnv ⟨false, false⟩).stdout = [headerRow]
    ∧ (run allDisabledEnv ⟨false, false⟩).exitCode = 0
    ∧ (run allDisabledEnv ⟨false, false⟩).warnings = [] :=
  empty_filter_result_still_succeeds allDisabledEnv ⟨false, false⟩
    [⟨"ap-south-1", "AP South", false, true⟩] rfl rfl (by decide) (by decide)

/-- An environment where everything succeeds except the final close of the
OCM connection. -/
def closeFailEnv : Env :=
  { buildConn := .ok ()
    closeConn := .error "session expired"
    buildAWS := .ok ()
    getKeys := .ok ⟨"AKID", "SECRET"⟩
    fetchRegions := .ok sampleRegions }

/-- C6: the claim that the acquired OCM connection is closed on every exit
path fails on the code.  `os.Exit(1)` terminates the Go process without
running deferred functions, so on the fetch-failure path and on the
empty-result path the deferred `ocmConnection.Close()` never runs, even
though the connection was acquired; the remaining part of the claim does
hold on the normal path, where a failing close is only reported and the
exit code stays 0. -/
theorem close_skipped_on_exit_paths :
    (run fetchFailEnv ⟨false, false⟩).connClosed = false
    ∧ (run emptyFetchEnv ⟨false, false⟩).connClosed = false
    ∧ (run closeFailEnv ⟨false, false⟩).connClosed = true
    ∧ (run closeFailEnv ⟨false, false⟩).exitCode = 0
    ∧ ("Failed to close OCM connection: session expired")
        ∈ (run closeFailEnv ⟨false, false⟩).errors := by
  decide

end Moactl
